import Mathlib

/-!
Verification of the form-state and validation logic of the DesenvMCP
screen templates (`src/templates/screens/FormScreen.tsx` and
`src/templates/screens/LoginScreen.tsx`).

Modelling conventions:
* JS strings are Lean `String`s; `s.length` counts characters (identical to
  the JS UTF-16 length on the BMP inputs the screens handle).
* A JS `Date` is modelled by the only part of it the code reads,
  `getFullYear()`, as an `Int`; the ambient clock (`new Date()` inside
  `validateForm`) becomes an explicit `today : Int` parameter.
* The two regular expressions of the source are embedded as executable
  backtracking matchers over `List Char` with existential (match-anywhere
  in the alternative order) acceptance, which coincides with JS `test`.
* `FormErrors` entries are `Option String` (`none` = key absent/undefined,
  matching the JS object where a cleared key is set to `undefined`).
-/

namespace DesenvMCP

/-- The character class `\s` of JS regexes, restricted to the ASCII range
(the Unicode space code points never occur in the screens' inputs). -/
def isJsWhitespace (c : Char) : Bool :=
  c = ' ' || c = '\t' || c = '\n' || c = '\r' ||
  c = Char.ofNat 11 || c = Char.ofNat 12

/-- JS `String.prototype.trim()`: strip whitespace from both ends
(executable; the core `String.trim` does not evaluate in the kernel). -/
def jsTrim (s : String) : String :=
  String.mk (((s.data.dropWhile isJsWhitespace).reverse.dropWhile isJsWhitespace).reverse)

/-- The separator class `[\s-]` of the phone regex. -/
def sepChar (c : Char) : Bool :=
  isJsWhitespace c || c = '-'

/-- All decompositions `l = a ++ b`, used for the `+`-quantified pieces of
the email regex. -/
def splits : List Char → List (List Char × List Char)
  | [] => [([], [])]
  | c :: l => ([], c :: l) :: (splits l).map (fun ab => (c :: ab.1, ab.2))

/-- The character class `[^\s@]` of the email regex. -/
def emailClassChar (c : Char) : Bool :=
  !(isJsWhitespace c) && !(c = '@')

/-- Acceptance of `/^[^\s@]+@[^\s@]+\.[^\s@]+$/` on a char list. -/
def emailAccepts (l : List Char) : Bool :=
  (splits l).any fun ar =>
    (!ar.1.isEmpty) && ar.1.all emailClassChar &&
    (match ar.2 with
     | '@' :: r2 =>
       (splits r2).any fun br =>
         (!br.1.isEmpty) && br.1.all emailClassChar &&
         (match br.2 with
          | '.' :: c3 => (!c3.isEmpty) && c3.all emailClassChar
          | _ => false)
     | _ => false)

/-- `validateEmail` of FormScreen.tsx lines 86-89 (identical in
LoginScreen.tsx lines 28-31): `emailRegex.test(email)`. -/
def validateEmail (email : String) : Bool :=
  emailAccepts email.data

/-- Consume exactly `n` leading `\d` characters, returning the consumed
group and the remainder (a capture group `(\d{n})`). -/
def grabDigits : Nat → List Char → Option (List Char × List Char)
  | 0, l => some ([], l)
  | _ + 1, [] => none
  | n + 1, c :: cs =>
    if c.isDigit then
      match grabDigits n cs with
      | some gr => some (c :: gr.1, gr.2)
      | none => none
    else none

/-- The remainders reachable after an optional token `p?`: both the
consumed and the unconsumed alternative (in greedy order). -/
def optChar (p : Char → Bool) (l : List Char) : List (List Char) :=
  match l with
  | [] => [[]]
  | c :: cs => if p c then [cs, c :: cs] else [c :: cs]

/-- Acceptance of the phone regex
`/^\(?\d{2}\)?[\s-]?\d{4,5}[\s-]?\d{4}$/` on a char list. -/
def phoneRegexAccepts (l : List Char) : Bool :=
  (optChar (fun c => c = '(') l).any fun l1 =>
    match grabDigits 2 l1 with
    | none => false
    | some g2 =>
      (optChar (fun c => c = ')') g2.2).any fun l3 =>
        (optChar sepChar l3).any fun l4 =>
          [5, 4].any fun n =>
            match grabDigits n l4 with
            | none => false
            | some g5 =>
              (optChar sepChar g5.2).any fun l6 =>
                match grabDigits 4 l6 with
                | none => false
                | some g7 => g7.2.isEmpty

/-- `phone.replace(/\D/g, '')`: keep only the digits. -/
def stripNonDigits (s : String) : String :=
  String.mk (s.data.filter Char.isDigit)

/-- `validatePhone` of FormScreen.tsx lines 91-94: the phone regex is
tested against the input with all non-digits stripped. -/
def validatePhone (phone : String) : Bool :=
  phoneRegexAccepts (stripNonDigits phone).data

/-- `FormData` of FormScreen.tsx lines 20-31 (`birthDate` by its year). -/
structure FormData where
  firstName : String
  lastName : String
  email : String
  phone : String
  birthDate : Int
  gender : String
  country : String
  bio : String
  notifications : Bool
  newsletter : Bool
deriving DecidableEq, Repr

/-- `FormErrors` of FormScreen.tsx lines 33-41: a partial map from the
seven validated field names to a message. -/
structure FormErrors where
  firstName : Option String := none
  lastName : Option String := none
  email : Option String := none
  phone : Option String := none
  birthDate : Option String := none
  country : Option String := none
  bio : Option String := none
deriving DecidableEq, Repr

/-- The `// Nome` block of `validateForm` (lines 100-107). -/
def nameStep (fd : FormData) (r : FormErrors × Bool) : FormErrors × Bool :=
  if jsTrim fd.firstName = "" then ({ r.1 with firstName := some "Nome é obrigatório" }, false)
  else if fd.firstName.length < 2 then
    ({ r.1 with firstName := some "Nome deve ter pelo menos 2 caracteres" }, false)
  else r

/-- The `// Sobrenome` block of `validateForm` (lines 109-116). -/
def lastNameStep (fd : FormData) (r : FormErrors × Bool) : FormErrors × Bool :=
  if jsTrim fd.lastName = "" then ({ r.1 with lastName := some "Sobrenome é obrigatório" }, false)
  else if fd.lastName.length < 2 then
    ({ r.1 with lastName := some "Sobrenome deve ter pelo menos 2 caracteres" }, false)
  else r

/-- The `// Email` block of `validateForm` (lines 118-125). -/
def emailStep (fd : FormData) (r : FormErrors × Bool) : FormErrors × Bool :=
  if jsTrim fd.email = "" then ({ r.1 with email := some "Email é obrigatório" }, false)
  else if !(validateEmail fd.email) then ({ r.1 with email := some "Email inválido" }, false)
  else r

/-- The `// Telefone` block of `validateForm` (lines 127-134). -/
def phoneStep (fd : FormData) (r : FormErrors × Bool) : FormErrors × Bool :=
  if jsTrim fd.phone = "" then ({ r.1 with phone := some "Telefone é obrigatório" }, false)
  else if !(validatePhone fd.phone) then ({ r.1 with phone := some "Telefone inválido" }, false)
  else r

/-- The `// Data de nascimento` block of `validateForm` (lines 136-145):
`age = today.getFullYear() - birthDate.getFullYear()`. -/
def birthStep (today : Int) (fd : FormData) (r : FormErrors × Bool) : FormErrors × Bool :=
  let age := today - fd.birthDate
  if age < 13 then ({ r.1 with birthDate := some "Idade mínima é 13 anos" }, false)
  else if age > 120 then ({ r.1 with birthDate := some "Data de nascimento inválida" }, false)
  else r

/-- The `// País` block of `validateForm` (lines 147-151). -/
def countryStep (fd : FormData) (r : FormErrors × Bool) : FormErrors × Bool :=
  if fd.country = "" then ({ r.1 with country := some "País é obrigatório" }, false)
  else r

/-- The `// Bio` block of `validateForm` (lines 153-157). -/
def bioStep (fd : FormData) (r : FormErrors × Bool) : FormErrors × Bool :=
  if fd.bio.length > 500 then ({ r.1 with bio := some "Bio deve ter no máximo 500 caracteres" }, false)
  else r

/-- `validateForm` of FormScreen.tsx lines 96-161: starting from
`newErrors = {}`, `isValid = true`, the seven blocks run in source order;
the result is the `setErrors` payload together with the returned bool. -/
def validateForm (today : Int) (fd : FormData) : FormErrors × Bool :=
  bioStep fd (countryStep fd (birthStep today fd
    (phoneStep fd (emailStep fd (lastNameStep fd (nameStep fd (({} : FormErrors), true)))))))

/-- The error object of LoginScreen.tsx line 26: both keys always present,
`""` meaning "no error" (the UI tests the message for truthiness). -/
structure LoginErrors where
  email : String := ""
  password : String := ""
deriving DecidableEq, Repr

/-- `validateForm` of LoginScreen.tsx lines 33-55. -/
def loginValidateForm (email password : String) : LoginErrors × Bool :=
  let r0 : LoginErrors × Bool := (({} : LoginErrors), true)
  let r1 :=
    if jsTrim email = "" then ({ r0.1 with email := "Email é obrigatório" }, false)
    else if !(validateEmail email) then ({ r0.1 with email := "Email inválido" }, false)
    else r0
  let r2 :=
    if jsTrim password = "" then ({ r1.1 with password := "Senha é obrigatória" }, false)
    else if password.length < 6 then
      ({ r1.1 with password := "Senha deve ter pelo menos 6 caracteres" }, false)
    else r1
  r2

/-- One digit-grouping attempt of the `formatPhone` regex
`/^(\d{2})(\d{4,5})(\d{4})$/` with the middle group taking `n` digits. -/
def tryGroups (n : Nat) (l : List Char) : Option (List Char × List Char × List Char) :=
  match grabDigits 2 l with
  | none => none
  | some g1 =>
    match grabDigits n g1.2 with
    | none => none
    | some g2 =>
      match grabDigits 4 g2.2 with
      | none => none
      | some g3 => if g3.2.isEmpty then some (g1.1, g2.1, g3.1) else none

/-- `cleaned.match(/^(\d{2})(\d{4,5})(\d{4})$/)`: the greedy middle group
tries five digits first, then four. -/
def matchPhoneGroups (l : List Char) : Option (List Char × List Char × List Char) :=
  (tryGroups 5 l).orElse fun _ => tryGroups 4 l

/-- `formatPhone` of FormScreen.tsx lines 192-199. -/
def formatPhone (phone : String) : String :=
  let cleaned := stripNonDigits phone
  match matchPhoneGroups cleaned.data with
  | some g =>
    "(" ++ String.mk g.1 ++ ") " ++ String.mk g.2.1 ++ "-" ++ String.mk g.2.2
  | none => phone

/-- The FormScreen controller state: `formData`, `errors`, `isLoading`
(lines 50-65; `showDatePicker` is pure presentation and omitted). -/
structure ControllerState where
  formData : FormData
  errors : FormErrors
  isLoading : Bool
deriving DecidableEq, Repr

/-- The LoginScreen controller state (lines 22-26; `showPassword` is pure
presentation and omitted). -/
structure LoginState where
  email : String
  password : String
  isLoading : Bool
  errors : LoginErrors
deriving DecidableEq, Repr

/-- One `validateForm()` call as a state transition: it stores the fresh
error map via `setErrors` and returns `isValid`. -/
def validateStep (today : Int) (s : ControllerState) : ControllerState × Bool :=
  let r := validateForm today s.formData
  ({ s with errors := r.1 }, r.2)

/-- `handleSubmit` of FormScreen.tsx lines 163-186, run to completion.
`oc` is the outcome of the awaited submission attempt (success or a
caught exception; both end in `finally { setIsLoading(false) }`). The
returned `Nat` counts how many times the submission attempt (the `try`
body, lines 170-180) was started. -/
def handleSubmit (today : Int) (_oc : Bool) (s : ControllerState) : ControllerState × Nat :=
  let r := validateForm today s.formData
  if r.2 then ({ s with errors := r.1, isLoading := false }, 1)
  else ({ s with errors := r.1 }, 0)

/-- `handleLogin` of LoginScreen.tsx lines 57-75, run to completion, with
the same conventions as `handleSubmit`. -/
def handleLogin (_oc : Bool) (s : LoginState) : LoginState × Nat :=
  let r := loginValidateForm s.email s.password
  if r.2 then ({ s with errors := r.1, isLoading := false }, 1)
  else ({ s with errors := r.1 }, 0)

/-- The field names of `FormData` (`keyof FormData`). -/
inductive FormField where
  | firstName | lastName | email | phone | birthDate | gender | country | bio
  | notifications | newsletter
deriving DecidableEq, Repr

/-- The value type carried by each field. -/
def FieldType : FormField → Type
  | .birthDate => Int
  | .notifications => Bool
  | .newsletter => Bool
  | _ => String

/-- Read one field of `FormData`. -/
def getField : (f : FormField) → FormData → FieldType f
  | .firstName, fd => fd.firstName
  | .lastName, fd => fd.lastName
  | .email, fd => fd.email
  | .phone, fd => fd.phone
  | .birthDate, fd => fd.birthDate
  | .gender, fd => fd.gender
  | .country, fd => fd.country
  | .bio, fd => fd.bio
  | .notifications, fd => fd.notifications
  | .newsletter, fd => fd.newsletter

/-- `{ ...prev, [field]: value }` on `FormData`. -/
def setField : (f : FormField) → FieldType f → FormData → FormData
  | .firstName, v, fd => { fd with firstName := v }
  | .lastName, v, fd => { fd with lastName := v }
  | .email, v, fd => { fd with email := v }
  | .phone, v, fd => { fd with phone := v }
  | .birthDate, v, fd => { fd with birthDate := v }
  | .gender, v, fd => { fd with gender := v }
  | .country, v, fd => { fd with country := v }
  | .bio, v, fd => { fd with bio := v }
  | .notifications, v, fd => { fd with notifications := v }
  | .newsletter, v, fd => { fd with newsletter := v }

/-- `errors[field as keyof FormErrors]`: the three fields outside
`FormErrors` read as `undefined`. -/
def errAt : FormField → FormErrors → Option String
  | .firstName, e => e.firstName
  | .lastName, e => e.lastName
  | .email, e => e.email
  | .phone, e => e.phone
  | .birthDate, e => e.birthDate
  | .country, e => e.country
  | .bio, e => e.bio
  | .gender, _ => none
  | .notifications, _ => none
  | .newsletter, _ => none

/-- JS truthiness of `errors[field]` (`undefined` and `''` are falsy). -/
def hasFieldError (f : FormField) (e : FormErrors) : Bool :=
  match errAt f e with
  | some m => !(m = "")
  | none => false

/-- `{ ...prev, [field]: undefined }` on `FormErrors` (for the three
fields outside `FormErrors` the added `undefined` key is unobservable). -/
def clearFieldError : FormField → FormErrors → FormErrors
  | .firstName, e => { e with firstName := none }
  | .lastName, e => { e with lastName := none }
  | .email, e => { e with email := none }
  | .phone, e => { e with phone := none }
  | .birthDate, e => { e with birthDate := none }
  | .country, e => { e with country := none }
  | .bio, e => { e with bio := none }
  | .gender, e => e
  | .notifications, e => e
  | .newsletter, e => e

/-- `updateFormData` of FormScreen.tsx lines 201-207. -/
def updateFormData (f : FormField) (v : FieldType f) (s : ControllerState) : ControllerState :=
  { s with
    formData := setField f v s.formData,
    errors := if hasFieldError f s.errors then clearFieldError f s.errors else s.errors }

/-- Every stored message is non-empty, as `validateForm` guarantees; the
`if (errors[field])` truthiness test in `updateFormData` identifies
presence with non-emptiness only under this invariant. -/
abbrev WFErrors (e : FormErrors) : Prop :=
  e.firstName ≠ some "" ∧ e.lastName ≠ some "" ∧ e.email ≠ some "" ∧
  e.phone ≠ some "" ∧ e.birthDate ≠ some "" ∧ e.country ≠ some "" ∧ e.bio ≠ some ""

/-- The per-field pass conditions of FormScreen's `validateForm`, exactly
as the code tests them. -/
abbrev RulesPass (today : Int) (fd : FormData) : Prop :=
  jsTrim fd.firstName ≠ "" ∧ ¬ fd.firstName.length < 2 ∧
  jsTrim fd.lastName ≠ "" ∧ ¬ fd.lastName.length < 2 ∧
  jsTrim fd.email ≠ "" ∧ validateEmail fd.email = true ∧
  jsTrim fd.phone ≠ "" ∧ validatePhone fd.phone = true ∧
  ¬ today - fd.birthDate < 13 ∧ ¬ today - fd.birthDate > 120 ∧
  fd.country ≠ "" ∧ ¬ fd.bio.length > 500

/-- The pass conditions of LoginScreen's `validateForm`. -/
abbrev LoginRulesPass (email password : String) : Prop :=
  jsTrim email ≠ "" ∧ validateEmail email = true ∧
  jsTrim password ≠ "" ∧ ¬ password.length < 6

/-- An option holds no empty message. -/
def msgOk (o : Option String) : Prop :=
  ∀ m, o = some m → m ≠ ""

/-- The characterization of the `// Nome` block output. -/
def fnErr (fd : FormData) : Option String :=
  if jsTrim fd.firstName = "" then some "Nome é obrigatório"
  else if fd.firstName.length < 2 then some "Nome deve ter pelo menos 2 caracteres"
  else none

/-- The characterization of the `// Sobrenome` block output. -/
def lnErr (fd : FormData) : Option String :=
  if jsTrim fd.lastName = "" then some "Sobrenome é obrigatório"
  else if fd.lastName.length < 2 then some "Sobrenome deve ter pelo menos 2 caracteres"
  else none

/-- The characterization of the `// Email` block output. -/
def emErr (fd : FormData) : Option String :=
  if jsTrim fd.email = "" then some "Email é obrigatório"
  else if !(validateEmail fd.email) then some "Email inválido"
  else none

/-- The characterization of the `// Telefone` block output. -/
def phErr (fd : FormData) : Option String :=
  if jsTrim fd.phone = "" then some "Telefone é obrigatório"
  else if !(validatePhone fd.phone) then some "Telefone inválido"
  else none

/-- The characterization of the `// Data de nascimento` block output. -/
def bdErr (today : Int) (fd : FormData) : Option String :=
  if today - fd.birthDate < 13 then some "Idade mínima é 13 anos"
  else if today - fd.birthDate > 120 then some "Data de nascimento inválida"
  else none

/-- The characterization of the `// País` block output. -/
def coErr (fd : FormData) : Option String :=
  if fd.country = "" then some "País é obrigatório"
  else none

/-- The characterization of the `// Bio` block output. -/
def biErr (fd : FormData) : Option String :=
  if fd.bio.length > 500 then some "Bio deve ter no máximo 500 caracteres"
  else none

/-- A fully valid form filling, for concrete instantiations. -/
def okFormData : FormData :=
  { firstName := "Ana", lastName := "Silva", email := "ana@exemplo.com",
    phone := "(11) 98765-4321", birthDate := 2000, gender := "female",
    country := "BR", bio := "Oi", notifications := true, newsletter := false }

/-- The initial `formData` of FormScreen.tsx lines 50-61 when
`initialData` is absent: every fallback applies, and `birthDate` defaults
to `new Date()`, whose year is the current year. -/
def defaultFormData (today : Int) : FormData :=
  { firstName := "", lastName := "", email := "", phone := "",
    birthDate := today, gender := "", country := "", bio := "",
    notifications := false, newsletter := false }

/-- Valid data except that the birth year makes the age 12 in 2025 and 13
in 2026: used to exhibit the clock dependence of `validateForm`. -/
def clockFormData : FormData :=
  { okFormData with birthDate := 2013 }

/-- The characterization of the login email block output (`""` = pass). -/
def leErr (email : String) : String :=
  if jsTrim email = "" then "Email é obrigatório"
  else if !(validateEmail email) then "Email inválido"
  else ""

/-- The characterization of the login password block output. -/
def lpErr (password : String) : String :=
  if jsTrim password = "" then "Senha é obrigatória"
  else if password.length < 6 then "Senha deve ter pelo menos 6 caracteres"
  else ""

/-- Valid data except for a birth year giving age exactly 13 in 2025. -/
def thirteenFormData : FormData :=
  { okFormData with birthDate := 2012 }

/-- A controller state holding one active error, used to instantiate the
`updateFormData` frame property. -/
def oneErrorState : ControllerState :=
  { formData := defaultFormData 2025,
    errors := { email := some "Email inválido" },
    isLoading := false }

/-- The idle state of a freshly opened FormScreen in year `today`. -/
def freshState (today : Int) : ControllerState :=
  { formData := defaultFormData today, errors := {}, isLoading := false }

/-- The idle state of a FormScreen filled with `okFormData`. -/
def filledState : ControllerState :=
  { formData := okFormData, errors := {}, isLoading := false }

/-- The idle state of a freshly opened LoginScreen. -/
def emptyLoginState : LoginState :=
  { email := "", password := "", isLoading := false, errors := {} }

/-- The idle state of a LoginScreen with valid credentials typed in. -/
def filledLoginState : LoginState :=
  { email := "ana@exemplo.com", password := "123456", isLoading := false, errors := {} }

/-! ## Helper lemmas -/

/-- A digit never equals a given non-digit character. -/
theorem digit_notin (c : Char) (hc : c.isDigit = true) (d : Char) (hd : d.isDigit = false) :
    (decide (c = d)) = false := by
  simp only [decide_eq_false_iff_not]
  intro h
  subst h
  rw [hc] at hd
  cases hd

/-- A digit is not in the `[\s-]` class. -/
theorem digit_not_sep (c : Char) (hc : c.isDigit = true) : sepChar c = false := by
  cases hs : sepChar c with
  | false => rfl
  | true =>
    exfalso
    simp only [sepChar, isJsWhitespace, Bool.or_eq_true, decide_eq_true_eq] at hs
    rcases hs with (((((h | h) | h) | h) | h) | h) | h <;> subst h <;> exact absurd hc (by decide)

/-- On an all-digit list, an optional punctuation token consumes nothing. -/
theorem optChar_digits (p : Char → Bool) (l : List Char) (h : l.all Char.isDigit = true)
    (hp : ∀ c, c.isDigit = true → p c = false) : optChar p l = [l] := by
  cases l with
  | nil => rfl
  | cons c cs =>
    simp only [List.all_cons, Bool.and_eq_true] at h
    simp [optChar, hp c h.1]

/-- Dropping preserves the all-digit property. -/
theorem all_drop {l : List Char} {n : Nat} (h : l.all Char.isDigit = true) :
    (l.drop n).all Char.isDigit = true := by
  simp only [List.all_eq_true] at h ⊢
  intro c hc
  exact h c (List.mem_of_mem_drop hc)

/-- `grabDigits` decomposes its input and yields an all-digit group. -/
theorem grabDigits_decomp : ∀ {n : Nat} {l g r : List Char}, grabDigits n l = some (g, r) →
    l = g ++ r ∧ g.length = n ∧ g.all Char.isDigit = true := by
  intro n
  induction n with
  | zero =>
    intro l g r h
    simp only [grabDigits, Option.some.injEq, Prod.mk.injEq] at h
    obtain ⟨hg, hr⟩ := h
    subst hg
    subst hr
    simp
  | succ n ih =>
    intro l g r h
    cases l with
    | nil => simp [grabDigits] at h
    | cons c cs =>
      simp only [grabDigits] at h
      by_cases hc : c.isDigit
      · rw [if_pos hc] at h
        cases hgd : grabDigits n cs with
        | none => rw [hgd] at h; cases h
        | some gr =>
          rw [hgd] at h
          simp only [Option.some.injEq, Prod.mk.injEq] at h
          obtain ⟨hg, hr⟩ := h
          obtain ⟨h1, h2, h3⟩ := ih hgd
          subst hg
          subst hr
          simp [h1, h2, h3, hc]
      · rw [if_neg hc] at h; cases h

/-- On an all-digit list, `grabDigits` succeeds exactly when enough input
remains, and then takes a prefix. -/
theorem grabDigits_all (n : Nat) : ∀ (l : List Char), l.all Char.isDigit = true →
    grabDigits n l = if n ≤ l.length then some (l.take n, l.drop n) else none := by
  induction n with
  | zero => intro l _; simp [grabDigits]
  | succ n ih =>
    intro l h
    cases l with
    | nil => simp [grabDigits]
    | cons c cs =>
      simp only [List.all_cons, Bool.and_eq_true] at h
      obtain ⟨hc, hcs⟩ := h
      simp only [grabDigits, if_pos hc, ih cs hcs]
      by_cases hle : n ≤ cs.length
      · rw [if_pos hle, if_pos (by simp [List.length_cons]; omega)]
        simp [List.take_succ_cons, List.drop_succ_cons]
      · rw [if_neg hle, if_neg (by simp [List.length_cons]; omega)]

/-- The `[\s-]?\d{4}$` tail of the phone regex on an all-digit list. -/
theorem last4_iff (t : List Char) (ht : t.all Char.isDigit = true) :
    ((optChar sepChar t).any fun l6 =>
      match grabDigits 4 l6 with
      | none => false
      | some g7 => g7.2.isEmpty) = true ↔ t.length = 4 := by
  rw [optChar_digits sepChar t ht digit_not_sep]
  simp only [List.any_cons, List.any_nil, Bool.or_false]
  rw [grabDigits_all 4 t ht]
  by_cases h4 : 4 ≤ t.length
  · rw [if_pos h4]
    simp only [List.isEmpty_iff, List.drop_eq_nil_iff]
    omega
  · rw [if_neg h4]
    simp only [Bool.false_eq_true, false_iff]
    omega

/-- The `\d{n}[\s-]?\d{4}$` middle-plus-tail of the phone regex. -/
theorem mid_match_iff (n : Nat) (t : List Char) (ht : t.all Char.isDigit = true) :
    (match grabDigits n t with
     | none => false
     | some g5 =>
       (optChar sepChar g5.2).any fun l6 =>
         match grabDigits 4 l6 with
         | none => false
         | some g7 => g7.2.isEmpty) = true ↔ t.length = n + 4 := by
  rw [grabDigits_all n t ht]
  by_cases hn : n ≤ t.length
  · rw [if_pos hn]
    rw [last4_iff (t.drop n) (all_drop ht)]
    simp only [List.length_drop]
    omega
  · rw [if_neg hn]
    simp only [Bool.false_eq_true, false_iff]
    omega

/-- The phone regex accepts an all-digit list exactly when it has ten or
eleven digits. -/
theorem phoneAccepts_len (l : List Char) (h : l.all Char.isDigit = true) :
    phoneRegexAccepts l = true ↔ (l.length = 10 ∨ l.length = 11) := by
  unfold phoneRegexAccepts
  rw [optChar_digits _ l h (fun c hc => digit_notin c hc '(' (by decide))]
  simp only [List.any_cons, List.any_nil, Bool.or_false]
  rw [grabDigits_all 2 l h]
  by_cases h2 : 2 ≤ l.length
  · rw [if_pos h2]
    dsimp only
    rw [optChar_digits _ (l.drop 2) (all_drop h) (fun c hc => digit_notin c hc ')' (by decide))]
    simp only [List.any_cons, List.any_nil, Bool.or_false]
    rw [optChar_digits sepChar (l.drop 2) (all_drop h) digit_not_sep]
    simp only [List.any_cons, List.any_nil, Bool.or_false, Bool.or_eq_true]
    rw [mid_match_iff 5 (l.drop 2) (all_drop h), mid_match_iff 4 (l.drop 2) (all_drop h)]
    simp only [List.length_drop]
    omega
  · rw [if_neg h2]
    simp only [Bool.false_eq_true, false_iff]
    omega

/-- The name block writes exactly the `fnErr` slot. -/
theorem nameStep_set (fd : FormData) (r : FormErrors × Bool) (h : r.1.firstName = none) :
    (nameStep fd r).1.firstName = fnErr fd := by
  unfold nameStep fnErr
  split_ifs <;> simp [h]

/-- The name block leaves the other six slots alone. -/
theorem nameStep_keep (fd : FormData) (r : FormErrors × Bool) :
    (nameStep fd r).1.lastName = r.1.lastName ∧ (nameStep fd r).1.email = r.1.email ∧
    (nameStep fd r).1.phone = r.1.phone ∧ (nameStep fd r).1.birthDate = r.1.birthDate ∧
    (nameStep fd r).1.country = r.1.country ∧ (nameStep fd r).1.bio = r.1.bio := by
  unfold nameStep
  split_ifs <;> simp

/-- The name block conjoins its pass bit onto the accumulator. -/
theorem nameStep_snd (fd : FormData) (r : FormErrors × Bool) :
    (nameStep fd r).2 = (r.2 && (fnErr fd).isNone) := by
  unfold nameStep fnErr
  split_ifs <;> simp

/-- The last-name block writes exactly the `lnErr` slot. -/
theorem lastNameStep_set (fd : FormData) (r : FormErrors × Bool) (h : r.1.lastName = none) :
    (lastNameStep fd r).1.lastName = lnErr fd := by
  unfold lastNameStep lnErr
  split_ifs <;> simp [h]

/-- The last-name block leaves the other six slots alone. -/
theorem lastNameStep_keep (fd : FormData) (r : FormErrors × Bool) :
    (lastNameStep fd r).1.firstName = r.1.firstName ∧ (lastNameStep fd r).1.email = r.1.email ∧
    (lastNameStep fd r).1.phone = r.1.phone ∧ (lastNameStep fd r).1.birthDate = r.1.birthDate ∧
    (lastNameStep fd r).1.country = r.1.country ∧ (lastNameStep fd r).1.bio = r.1.bio := by
  unfold lastNameStep
  split_ifs <;> simp

/-- The last-name block conjoins its pass bit onto the accumulator. -/
theorem lastNameStep_snd (fd : FormData) (r : FormErrors × Bool) :
    (lastNameStep fd r).2 = (r.2 && (lnErr fd).isNone) := by
  unfold lastNameStep lnErr
  split_ifs <;> simp

/-- The email block writes exactly the `emErr` slot. -/
theorem emailStep_set (fd : FormData) (r : FormErrors × Bool) (h : r.1.email = none) :
    (emailStep fd r).1.email = emErr fd := by
  unfold emailStep emErr
  split_ifs <;> simp [h]

/-- The email block leaves the other six slots alone. -/
theorem emailStep_keep (fd : FormData) (r : FormErrors × Bool) :
    (emailStep fd r).1.firstName = r.1.firstName ∧ (emailStep fd r).1.lastName = r.1.lastName ∧
    (emailStep fd r).1.phone = r.1.phone ∧ (emailStep fd r).1.birthDate = r.1.birthDate ∧
    (emailStep fd r).1.country = r.1.country ∧ (emailStep fd r).1.bio = r.1.bio := by
  unfold emailStep
  split_ifs <;> simp

/-- The email block conjoins its pass bit onto the accumulator. -/
theorem emailStep_snd (fd : FormData) (r : FormErrors × Bool) :
    (emailStep fd r).2 = (r.2 && (emErr fd).isNone) := by
  unfold emailStep emErr
  split_ifs <;> simp

/-- The phone block writes exactly the `phErr` slot. -/
theorem phoneStep_set (fd : FormData) (r : FormErrors × Bool) (h : r.1.phone = none) :
    (phoneStep fd r).1.phone = phErr fd := by
  unfold phoneStep phErr
  split_ifs <;> simp [h]

/-- The phone block leaves the other six slots alone. -/
theorem phoneStep_keep (fd : FormData) (r : FormErrors × Bool) :
    (phoneStep fd r).1.firstName = r.1.firstName ∧ (phoneStep fd r).1.lastName = r.1.lastName ∧
    (phoneStep fd r).1.email = r.1.email ∧ (phoneStep fd r).1.birthDate = r.1.birthDate ∧
    (phoneStep fd r).1.country = r.1.country ∧ (phoneStep fd r).1.bio = r.1.bio := by
  unfold phoneStep
  split_ifs <;> simp

/-- The phone block conjoins its pass bit onto the accumulator. -/
theorem phoneStep_snd (fd : FormData) (r : FormErrors × Bool) :
    (phoneStep fd r).2 = (r.2 && (phErr fd).isNone) := by
  unfold phoneStep phErr
  split_ifs <;> simp

/-- The birth-date block writes exactly the `bdErr` slot. -/
theorem birthStep_set (today : Int) (fd : FormData) (r : FormErrors × Bool)
    (h : r.1.birthDate = none) : (birthStep today fd r).1.birthDate = bdErr today fd := by
  unfold birthStep bdErr
  dsimp only
  split_ifs <;> simp [h]

/-- The birth-date block leaves the other six slots alone. -/
theorem birthStep_keep (today : Int) (fd : FormData) (r : FormErrors × Bool) :
    (birthStep today fd r).1.firstName = r.1.firstName ∧
    (birthStep today fd r).1.lastName = r.1.lastName ∧
    (birthStep today fd r).1.email = r.1.email ∧ (birthStep today fd r).1.phone = r.1.phone ∧
    (birthStep today fd r).1.country = r.1.country ∧ (birthStep today fd r).1.bio = r.1.bio := by
  unfold birthStep
  dsimp only
  split_ifs <;> simp

/-- The birth-date block conjoins its pass bit onto the accumulator. -/
theorem birthStep_snd (today : Int) (fd : FormData) (r : FormErrors × Bool) :
    (birthStep today fd r).2 = (r.2 && (bdErr today fd).isNone) := by
  unfold birthStep bdErr
  dsimp only
  split_ifs <;> simp

/-- The country block writes exactly the `coErr` slot. -/
theorem countryStep_set (fd : FormData) (r : FormErrors × Bool) (h : r.1.country = none) :
    (countryStep fd r).1.country = coErr fd := by
  unfold countryStep coErr
  split_ifs <;> simp [h]

/-- The country block leaves the other six slots alone. -/
theorem countryStep_keep (fd : FormData) (r : FormErrors × Bool) :
    (countryStep fd r).1.firstName = r.1.firstName ∧
    (countryStep fd r).1.lastName = r.1.lastName ∧
    (countryStep fd r).1.email = r.1.email ∧ (countryStep fd r).1.phone = r.1.phone ∧
    (countryStep fd r).1.birthDate = r.1.birthDate ∧ (countryStep fd r).1.bio = r.1.bio := by
  unfold countryStep
  split_ifs <;> simp

/-- The country block conjoins its pass bit onto the accumulator. -/
theorem countryStep_snd (fd : FormData) (r : FormErrors × Bool) :
    (countryStep fd r).2 = (r.2 && (coErr fd).isNone) := by
  unfold countryStep coErr
  split_ifs <;> simp

/-- The bio block writes exactly the `biErr` slot. -/
theorem bioStep_set (fd : FormData) (r : FormErrors × Bool) (h : r.1.bio = none) :
    (bioStep fd r).1.bio = biErr fd := by
  unfold bioStep biErr
  split_ifs <;> simp [h]

/-- The bio block leaves the other six slots alone. -/
theorem bioStep_keep (fd : FormData) (r : FormErrors × Bool) :
    (bioStep fd r).1.firstName = r.1.firstName ∧ (bioStep fd r).1.lastName = r.1.lastName ∧
    (bioStep fd r).1.email = r.1.email ∧ (bioStep fd r).1.phone = r.1.phone ∧
    (bioStep fd r).1.birthDate = r.1.birthDate ∧ (bioStep fd r).1.country = r.1.country := by
  unfold bioStep
  split_ifs <;> simp

/-- The bio block conjoins its pass bit onto the accumulator. -/
theorem bioStep_snd (fd : FormData) (r : FormErrors × Bool) :
    (bioStep fd r).2 = (r.2 && (biErr fd).isNone) := by
  unfold bioStep biErr
  split_ifs <;> simp

/-- The `firstName` slot of a full `validateForm` run. -/
theorem vf_firstName (today : Int) (fd : FormData) :
    (validateForm today fd).1.firstName = fnErr fd := by
  unfold validateForm
  rw [(bioStep_keep fd _).1, (countryStep_keep fd _).1, (birthStep_keep today fd _).1,
    (phoneStep_keep fd _).1, (emailStep_keep fd _).1, (lastNameStep_keep fd _).1]
  exact nameStep_set fd _ rfl

/-- The `lastName` slot of a full `validateForm` run. -/
theorem vf_lastName (today : Int) (fd : FormData) :
    (validateForm today fd).1.lastName = lnErr fd := by
  unfold validateForm
  rw [(bioStep_keep fd _).2.1, (countryStep_keep fd _).2.1, (birthStep_keep today fd _).2.1,
    (phoneStep_keep fd _).2.1, (emailStep_keep fd _).2.1]
  exact lastNameStep_set fd _ ((nameStep_keep fd _).1.trans rfl)

/-- The `email` slot of a full `validateForm` run. -/
theorem vf_email (today : Int) (fd : FormData) :
    (validateForm today fd).1.email = emErr fd := by
  unfold validateForm
  rw [(bioStep_keep fd _).2.2.1, (countryStep_keep fd _).2.2.1,
    (birthStep_keep today fd _).2.2.1, (phoneStep_keep fd _).2.2.1]
  exact emailStep_set fd _
    (((lastNameStep_keep fd _).2.1).trans (((nameStep_keep fd _).2.1).trans rfl))

/-- The `phone` slot of a full `validateForm` run. -/
theorem vf_phone (today : Int) (fd : FormData) :
    (validateForm today fd).1.phone = phErr fd := by
  unfold validateForm
  rw [(bioStep_keep fd _).2.2.2.1, (countryStep_keep fd _).2.2.2.1,
    (birthStep_keep today fd _).2.2.2.1]
  exact phoneStep_set fd _
    (((emailStep_keep fd _).2.2.1).trans
      (((lastNameStep_keep fd _).2.2.1).trans (((nameStep_keep fd _).2.2.1).trans rfl)))

/-- The `birthDate` slot of a full `validateForm` run. -/
theorem vf_birthDate (today : Int) (fd : FormData) :
    (validateForm today fd).1.birthDate = bdErr today fd := by
  unfold validateForm
  rw [(bioStep_keep fd _).2.2.2.2.1, (countryStep_keep fd _).2.2.2.2.1]
  exact birthStep_set today fd _
    (((phoneStep_keep fd _).2.2.2.1).trans
      (((emailStep_keep fd _).2.2.2.1).trans
        (((lastNameStep_keep fd _).2.2.2.1).trans (((nameStep_keep fd _).2.2.2.1).trans rfl))))

/-- The `country` slot of a full `validateForm` run. -/
theorem vf_country (today : Int) (fd : FormData) :
    (validateForm today fd).1.country = coErr fd := by
  unfold validateForm
  rw [(bioStep_keep fd _).2.2.2.2.2]
  exact countryStep_set fd _
    (((birthStep_keep today fd _).2.2.2.2.1).trans
      (((phoneStep_keep fd _).2.2.2.2.1).trans
        (((emailStep_keep fd _).2.2.2.2.1).trans
          (((lastNameStep_keep fd _).2.2.2.2.1).trans
            (((nameStep_keep fd _).2.2.2.2.1).trans rfl)))))

/-- The `bio` slot of a full `validateForm` run. -/
theorem vf_bio (today : Int) (fd : FormData) :
    (validateForm today fd).1.bio = biErr fd := by
  unfold validateForm
  exact bioStep_set fd _
    (((countryStep_keep fd _).2.2.2.2.2).trans
      (((birthStep_keep today fd _).2.2.2.2.2).trans
        (((phoneStep_keep fd _).2.2.2.2.2).trans
          (((emailStep_keep fd _).2.2.2.2.2).trans
            (((lastNameStep_keep fd _).2.2.2.2.2).trans
              (((nameStep_keep fd _).2.2.2.2.2).trans rfl))))))

/-- The bool returned by `validateForm` is true exactly when every
per-field check passes. -/
theorem vf_valid_iff (today : Int) (fd : FormData) :
    (validateForm today fd).2 = true ↔
      (fnErr fd = none ∧ lnErr fd = none ∧ emErr fd = none ∧ phErr fd = none ∧
       bdErr today fd = none ∧ coErr fd = none ∧ biErr fd = none) := by
  unfold validateForm
  rw [bioStep_snd, countryStep_snd, birthStep_snd, phoneStep_snd, emailStep_snd,
    lastNameStep_snd, nameStep_snd]
  simp [Bool.and_eq_true, Option.isNone_iff_eq_none, and_assoc]

/-- The whole error record of a full `validateForm` run. -/
theorem validateForm_errors (today : Int) (fd : FormData) :
    (validateForm today fd).1 =
      { firstName := fnErr fd, lastName := lnErr fd, email := emErr fd, phone := phErr fd,
        birthDate := bdErr today fd, country := coErr fd, bio := biErr fd } := by
  have h1 := vf_firstName today fd
  have h2 := vf_lastName today fd
  have h3 := vf_email today fd
  have h4 := vf_phone today fd
  have h5 := vf_birthDate today fd
  have h6 := vf_country today fd
  have h7 := vf_bio today fd
  cases he : (validateForm today fd).1
  rw [he] at h1 h2 h3 h4 h5 h6 h7
  simp only at h1 h2 h3 h4 h5 h6 h7
  simp [h1, h2, h3, h4, h5, h6, h7]

/-- `loginValidateForm` computes the two slots independently and returns
true exactly when both messages are empty. -/
theorem loginValidateForm_eq (e p : String) :
    loginValidateForm e p =
      ({ email := leErr e, password := lpErr p },
       (decide (leErr e = "") && decide (lpErr p = ""))) := by
  unfold loginValidateForm leErr lpErr
  dsimp only
  split_ifs <;> rfl

/-- The empty option satisfies `msgOk`. -/
theorem msgOk_none : msgOk none :=
  fun _ h => Option.noConfusion h

/-- A non-empty message satisfies `msgOk`. -/
theorem msgOk_some (m : String) (h : m ≠ "") : msgOk (some m) := by
  intro m2 h2
  cases h2
  exact h

/-- Stripping non-digits leaves only digits. -/
theorem strip_all_digits (s : String) : (stripNonDigits s).data.all Char.isDigit = true := by
  simp only [stripNonDigits, List.all_eq_true]
  intro c hc
  exact (List.mem_filter.mp hc).2

/-- A list all whose elements satisfy `p` is unchanged by `filter p`. -/
theorem filter_of_all (p : Char → Bool) (l : List Char) (h : l.all p = true) :
    l.filter p = l := by
  rw [List.filter_eq_self]
  intro a ha
  exact List.all_eq_true.mp h a ha

/-- A successful `tryGroups` run decomposes its input into three all-digit
groups of the requested sizes. -/
theorem tryGroups_decomp : ∀ {n : Nat} {l a m b : List Char}, tryGroups n l = some (a, m, b) →
    l = a ++ (m ++ b) ∧ a.all Char.isDigit = true ∧ m.all Char.isDigit = true ∧
      b.all Char.isDigit = true ∧ a.length = 2 ∧ m.length = n ∧ b.length = 4 := by
  intro n l a m b h
  unfold tryGroups at h
  cases h2 : grabDigits 2 l with
  | none => simp only [h2] at h; exact Option.noConfusion h
  | some g1 =>
    simp only [h2] at h
    cases hn : grabDigits n g1.2 with
    | none => simp only [hn] at h; exact Option.noConfusion h
    | some g2 =>
      simp only [hn] at h
      cases h4 : grabDigits 4 g2.2 with
      | none => simp only [h4] at h; exact Option.noConfusion h
      | some g3 =>
        simp only [h4] at h
        by_cases he : g3.2.isEmpty
        · rw [if_pos he] at h
          simp only [Option.some.injEq, Prod.mk.injEq] at h
          obtain ⟨ha, hm, hb⟩ := h
          obtain ⟨d1, d2, d3⟩ := grabDigits_decomp h2
          obtain ⟨e1, e2, e3⟩ := grabDigits_decomp hn
          obtain ⟨f1, f2, f3⟩ := grabDigits_decomp h4
          have hb2 : g3.2 = [] := List.isEmpty_iff.mp he
          subst ha
          subst hm
          subst hb
          refine ⟨?_, d3, e3, f3, d2, e2, f2⟩
          rw [d1, e1, f1, hb2]
          simp
        · rw [if_neg he] at h
          cases h

/-- A successful `matchPhoneGroups` run decomposes its input into the
area code, the four-or-five digit middle group, and the final four. -/
theorem matchPhoneGroups_decomp {l a m b : List Char}
    (h : matchPhoneGroups l = some (a, m, b)) :
    l = a ++ (m ++ b) ∧ a.all Char.isDigit = true ∧ m.all Char.isDigit = true ∧
      b.all Char.isDigit = true ∧ a.length = 2 ∧ (m.length = 5 ∨ m.length = 4) ∧
      b.length = 4 := by
  unfold matchPhoneGroups at h
  cases h5 : tryGroups 5 l with
  | some g =>
    rw [h5] at h
    simp only [Option.orElse] at h
    cases h
    obtain ⟨x1, x2, x3, x4, x5, x6, x7⟩ := tryGroups_decomp h5
    exact ⟨x1, x2, x3, x4, x5, Or.inl x6, x7⟩
  | none =>
    rw [h5] at h
    simp only [Option.orElse] at h
    obtain ⟨x1, x2, x3, x4, x5, x6, x7⟩ := tryGroups_decomp h
    exact ⟨x1, x2, x3, x4, x5, Or.inr x6, x7⟩

/-- `formatPhone` never changes the digit content of its input. -/
theorem formatPhone_strip (s : String) :
    stripNonDigits (formatPhone s) = stripNonDigits s := by
  unfold formatPhone
  cases hm : matchPhoneGroups (stripNonDigits s).data with
  | none => simp only [hm]
  | some g =>
    simp only [hm]
    obtain ⟨hl, ha, hmid, hb, _, _, _⟩ := matchPhoneGroups_decomp hm
    show stripNonDigits ("(" ++ String.mk g.1 ++ ") " ++ String.mk g.2.1 ++ "-" ++ String.mk g.2.2) = stripNonDigits s
    unfold stripNonDigits
    apply congrArg
    have e1 : ("(" : String).data.filter Char.isDigit = [] := by decide
    have e2 : (") " : String).data.filter Char.isDigit = [] := by decide
    have e3 : ("-" : String).data.filter Char.isDigit = [] := by decide
    rw [String.data_append, String.data_append, String.data_append, String.data_append,
      String.data_append]
    rw [List.filter_append, List.filter_append, List.filter_append, List.filter_append,
      List.filter_append]
    have dm : ∀ t : List Char, (String.mk t).data = t := fun _ => rfl
    rw [dm, dm, dm, e1, e2, e3, filter_of_all _ _ ha, filter_of_all _ _ hmid,
      filter_of_all _ _ hb]
    have hr : s.data.filter Char.isDigit = g.1 ++ (g.2.1 ++ g.2.2) := hl
    rw [hr]
    simp

/-! ## Claims -/

/-- C1: for every `FormValues` whose fields all satisfy their rules
(names non-empty after trim and of length at least 2, email and phone
matching their patterns, computed age within 13..120, country non-empty,
bio at most 500 characters, login email valid, login password of length
at least 6), `validate()` returns `isValid = true` with an empty error
map, and — on both screens — `validate()` returns true exactly when the
error map it produces is empty (for the login screen, whose error object
always carries both keys, "empty" means both messages are `""`). -/
theorem validate_true_iff_no_errors (today : Int) (fd : FormData) (e p : String)
    (hf : RulesPass today fd) (hl : LoginRulesPass e p) :
    validateForm today fd = (({} : FormErrors), true)
    ∧ loginValidateForm e p = (({} : LoginErrors), true)
    ∧ (∀ (t : Int) (fd2 : FormData),
        (validateForm t fd2).2 = true ↔ (validateForm t fd2).1 = ({} : FormErrors))
    ∧ (∀ (e2 p2 : String),
        (loginValidateForm e2 p2).2 = true ↔ (loginValidateForm e2 p2).1 = ({} : LoginErrors)) := by
  obtain ⟨h1, h2, h3, h4, h5, h6, h7, h8, h9, h10, h11, h12⟩ := hf
  obtain ⟨g1, g2, g3, g4⟩ := hl
  have efn : fnErr fd = none := by unfold fnErr; rw [if_neg h1, if_neg h2]
  have eln : lnErr fd = none := by unfold lnErr; rw [if_neg h3, if_neg h4]
  have eem : emErr fd = none := by unfold emErr; rw [if_neg h5, if_neg (by simp [h6])]
  have eph : phErr fd = none := by unfold phErr; rw [if_neg h7, if_neg (by simp [h8])]
  have ebd : bdErr today fd = none := by unfold bdErr; rw [if_neg h9, if_neg h10]
  have eco : coErr fd = none := by unfold coErr; rw [if_neg h11]
  have ebi : biErr fd = none := by unfold biErr; rw [if_neg h12]
  have ele : leErr e = "" := by unfold leErr; rw [if_neg g1, if_neg (by simp [g2])]
  have elp : lpErr p = "" := by unfold lpErr; rw [if_neg g3, if_neg g4]
  refine ⟨?_, ?_, ?_, ?_⟩
  · have hfst : (validateForm today fd).1 = ({} : FormErrors) := by
      rw [validateForm_errors, efn, eln, eem, eph, ebd, eco, ebi]
    have hsnd : (validateForm today fd).2 = true :=
      (vf_valid_iff today fd).mpr ⟨efn, eln, eem, eph, ebd, eco, ebi⟩
    exact Prod.ext hfst hsnd
  · rw [loginValidateForm_eq, ele, elp]
    rfl
  · intro t fd2
    rw [vf_valid_iff, validateForm_errors]
    constructor
    · rintro ⟨a1, a2, a3, a4, a5, a6, a7⟩
      rw [a1, a2, a3, a4, a5, a6, a7]
    · intro hrec
      simp only [FormErrors.mk.injEq] at hrec
      exact ⟨hrec.1, hrec.2.1, hrec.2.2.1, hrec.2.2.2.1, hrec.2.2.2.2.1,
        hrec.2.2.2.2.2.1, hrec.2.2.2.2.2.2⟩
  · intro e2 p2
    rw [loginValidateForm_eq]
    simp only [Bool.and_eq_true, decide_eq_true_eq, LoginErrors.mk.injEq]

/-- C1 witness: the fully valid concrete inputs pass on both screens. -/
theorem validate_true_iff_no_errors_witness :
    validateForm 2025 okFormData = (({} : FormErrors), true)
    ∧ loginValidateForm "ana@exemplo.com" "123456" = (({} : LoginErrors), true) :=
  ⟨(validate_true_iff_no_errors 2025 okFormData "ana@exemplo.com" "123456"
      (by decide) (by decide)).1,
   (validate_true_iff_no_errors 2025 okFormData "ana@exemplo.com" "123456"
      (by decide) (by decide)).2.1⟩

/-- C2: after a `validate()` call a field key is present in the produced
error map exactly when that field's value fails its rule; every message
stored for a failing field is non-empty, and passing fields are absent
(on the login screen, where both keys always exist, presence means a
non-empty message). -/
theorem errors_iff_failures (today : Int) (fd : FormData) (e p : String) :
    (((validateForm today fd).1.firstName.isSome = true) ↔
      (jsTrim fd.firstName = "" ∨ fd.firstName.length < 2))
    ∧ (((validateForm today fd).1.lastName.isSome = true) ↔
      (jsTrim fd.lastName = "" ∨ fd.lastName.length < 2))
    ∧ (((validateForm today fd).1.email.isSome = true) ↔
      (jsTrim fd.email = "" ∨ validateEmail fd.email = false))
    ∧ (((validateForm today fd).1.phone.isSome = true) ↔
      (jsTrim fd.phone = "" ∨ validatePhone fd.phone = false))
    ∧ (((validateForm today fd).1.birthDate.isSome = true) ↔
      (today - fd.birthDate < 13 ∨ today - fd.birthDate > 120))
    ∧ (((validateForm today fd).1.country.isSome = true) ↔ fd.country = "")
    ∧ (((validateForm today fd).1.bio.isSome = true) ↔ fd.bio.length > 500)
    ∧ msgOk (validateForm today fd).1.firstName
    ∧ msgOk (validateForm today fd).1.lastName
    ∧ msgOk (validateForm today fd).1.email
    ∧ msgOk (validateForm today fd).1.phone
    ∧ msgOk (validateForm today fd).1.birthDate
    ∧ msgOk (validateForm today fd).1.country
    ∧ msgOk (validateForm today fd).1.bio
    ∧ (((loginValidateForm e p).1.email ≠ "") ↔
      (jsTrim e = "" ∨ validateEmail e = false))
    ∧ (((loginValidateForm e p).1.password ≠ "") ↔
      (jsTrim p = "" ∨ p.length < 6)) := by
  rw [vf_firstName, vf_lastName, vf_email, vf_phone, vf_birthDate, vf_country, vf_bio,
    loginValidateForm_eq]
  refine ⟨?_, ?_, ?_, ?_, ?_, ?_, ?_, ?_, ?_, ?_, ?_, ?_, ?_, ?_, ?_, ?_⟩
  · unfold fnErr; split_ifs <;> simp_all
  · unfold lnErr; split_ifs <;> simp_all
  · unfold emErr; split_ifs <;> simp_all
  · unfold phErr; split_ifs <;> simp_all
  · unfold bdErr; split_ifs <;> simp_all
  · unfold coErr; split_ifs <;> simp_all
  · unfold biErr; split_ifs <;> simp_all
  · unfold fnErr
    split_ifs <;> first | exact msgOk_some _ (by decide) | exact msgOk_none
  · unfold lnErr
    split_ifs <;> first | exact msgOk_some _ (by decide) | exact msgOk_none
  · unfold emErr
    split_ifs <;> first | exact msgOk_some _ (by decide) | exact msgOk_none
  · unfold phErr
    split_ifs <;> first | exact msgOk_some _ (by decide) | exact msgOk_none
  · unfold bdErr
    split_ifs <;> first | exact msgOk_some _ (by decide) | exact msgOk_none
  · unfold coErr
    split_ifs <;> first | exact msgOk_some _ (by decide) | exact msgOk_none
  · unfold biErr
    split_ifs <;> first | exact msgOk_some _ (by decide) | exact msgOk_none
  · show (leErr e ≠ "") ↔ _
    unfold leErr
    split_ifs <;> simp_all
  · show (lpErr p ≠ "") ↔ _
    unfold lpErr
    split_ifs <;> simp_all

/-- C2 witness: on the default (empty) form the first-name key is present
exactly as its rule fails. -/
theorem errors_iff_failures_witness :
    ((validateForm 2025 (defaultFormData 2025)).1.firstName.isSome = true) ↔
      (jsTrim (defaultFormData 2025).firstName = "" ∨
        (defaultFormData 2025).firstName.length < 2) :=
  (errors_iff_failures 2025 (defaultFormData 2025) "" "").1

/-- C3 counterexample: `validateForm` reads the system clock, so the same
`FormValues` (birth year 2013, all other fields valid) yields a
birth-date error in 2025 but none in 2026 — the result is not a function
of `FormValues` alone. -/
theorem validate_clock_dependent :
    (validateForm 2025 clockFormData).1 ≠ (validateForm 2026 clockFormData).1 := by
  decide

/-- C3 (amended): `validate()` is a deterministic, pure function of the
current `FormValues` together with the current year; with the year fixed,
re-running validation on an unchanged controller state reproduces the
identical error map and verdict (idempotence). -/
theorem validate_pure_idempotent (today : Int) (s : ControllerState) :
    validateStep today (validateStep today s).1 = validateStep today s := by
  unfold validateStep
  rfl

/-- C3 witness: idempotence at the freshly opened 2025 form. -/
theorem validate_pure_idempotent_witness :
    validateStep 2025 (validateStep 2025 (freshState 2025)).1 =
      validateStep 2025 (freshState 2025) :=
  validate_pure_idempotent 2025 (freshState 2025)

/-- C4: `updateField(name, v)` replaces exactly the named field (a read
returns `v` there and every other field is unchanged), removes the named
entry from `FieldErrors` when present, leaves every other error entry
untouched, and re-validates nothing; stated for every state whose stored
messages are non-empty, as `validateForm` guarantees. -/
theorem updateField_frame (f : FormField) (v : FieldType f) (s : ControllerState)
    (hwf : WFErrors s.errors) :
    getField f (updateFormData f v s).formData = v
    ∧ (∀ g : FormField, g ≠ f →
        getField g (updateFormData f v s).formData = getField g s.formData)
    ∧ errAt f (updateFormData f v s).errors = none
    ∧ (∀ g : FormField, g ≠ f → errAt g (updateFormData f v s).errors = errAt g s.errors)
    ∧ (updateFormData f v s).isLoading = s.isLoading := by
  obtain ⟨w1, w2, w3, w4, w5, w6, w7⟩ := hwf
  refine ⟨?_, ?_, ?_, ?_, rfl⟩
  · cases f <;> rfl
  · intro g hg
    cases f <;> cases g <;> first | exact absurd rfl hg | rfl
  · cases f
    case firstName =>
      simp only [updateFormData]
      split_ifs with h
      · rfl
      · cases ho : s.errors.firstName with
        | none => exact ho
        | some m =>
          exfalso
          apply h
          simp only [hasFieldError, errAt, ho, Bool.not_eq_true', decide_eq_false_iff_not]
          intro hme
          subst hme
          exact w1 ho
    case lastName =>
      simp only [updateFormData]
      split_ifs with h
      · rfl
      · cases ho : s.errors.lastName with
        | none => exact ho
        | some m =>
          exfalso
          apply h
          simp only [hasFieldError, errAt, ho, Bool.not_eq_true', decide_eq_false_iff_not]
          intro hme
          subst hme
          exact w2 ho
    case email =>
      simp only [updateFormData]
      split_ifs with h
      · rfl
      · cases ho : s.errors.email with
        | none => exact ho
        | some m =>
          exfalso
          apply h
          simp only [hasFieldError, errAt, ho, Bool.not_eq_true', decide_eq_false_iff_not]
          intro hme
          subst hme
          exact w3 ho
    case phone =>
      simp only [updateFormData]
      split_ifs with h
      · rfl
      · cases ho : s.errors.phone with
        | none => exact ho
        | some m =>
          exfalso
          apply h
          simp only [hasFieldError, errAt, ho, Bool.not_eq_true', decide_eq_false_iff_not]
          intro hme
          subst hme
          exact w4 ho
    case birthDate =>
      simp only [updateFormData]
      split_ifs with h
      · rfl
      · cases ho : s.errors.birthDate with
        | none => exact ho
        | some m =>
          exfalso
          apply h
          simp only [hasFieldError, errAt, ho, Bool.not_eq_true', decide_eq_false_iff_not]
          intro hme
          subst hme
          exact w5 ho
    case country =>
      simp only [updateFormData]
      split_ifs with h
      · rfl
      · cases ho : s.errors.country with
        | none => exact ho
        | some m =>
          exfalso
          apply h
          simp only [hasFieldError, errAt, ho, Bool.not_eq_true', decide_eq_false_iff_not]
          intro hme
          subst hme
          exact w6 ho
    case bio =>
      simp only [updateFormData]
      split_ifs with h
      · rfl
      · cases ho : s.errors.bio with
        | none => exact ho
        | some m =>
          exfalso
          apply h
          simp only [hasFieldError, errAt, ho, Bool.not_eq_true', decide_eq_false_iff_not]
          intro hme
          subst hme
          exact w7 ho
    case gender => rfl
    case notifications => rfl
    case newsletter => rfl
  · intro g hg
    cases f <;> cases g <;>
      first
        | exact absurd rfl hg
        | (simp only [updateFormData]; split_ifs <;> rfl)

/-- C4 witness: updating the email field writes the value and clears the
email error while keeping the phone slot and the loading flag. -/
theorem updateField_frame_witness :
    getField FormField.email ((updateFormData FormField.email "a@b.co" oneErrorState).formData)
      = "a@b.co"
    ∧ errAt FormField.email (updateFormData FormField.email "a@b.co" oneErrorState).errors
      = none
    ∧ errAt FormField.phone (updateFormData FormField.email "a@b.co" oneErrorState).errors
      = errAt FormField.phone oneErrorState.errors
    ∧ (updateFormData FormField.email "a@b.co" oneErrorState).isLoading
      = oneErrorState.isLoading :=
  ⟨(updateField_frame FormField.email "a@b.co" oneErrorState (by decide)).1,
   (updateField_frame FormField.email "a@b.co" oneErrorState (by decide)).2.2.1,
   (updateField_frame FormField.email "a@b.co" oneErrorState (by decide)).2.2.2.1
     FormField.phone (by decide),
   (updateField_frame FormField.email "a@b.co" oneErrorState (by decide)).2.2.2.2⟩

/-- C5: when validation fails, a submit run makes no submission attempt,
surfaces the freshly computed error map, leaves the form values unchanged
and the controller Idle with the loading flag unset — on both screens. -/
theorem submit_invalid_no_attempt (today : Int) (oc : Bool) (s : ControllerState)
    (oc2 : Bool) (ls : LoginState)
    (hv : (validateForm today s.formData).2 = false) (hl : s.isLoading = false)
    (hv2 : (loginValidateForm ls.email ls.password).2 = false) (hl2 : ls.isLoading = false) :
    (handleSubmit today oc s).2 = 0
    ∧ (handleSubmit today oc s).1.formData = s.formData
    ∧ (handleSubmit today oc s).1.isLoading = false
    ∧ (handleSubmit today oc s).1.errors = (validateForm today s.formData).1
    ∧ (handleLogin oc2 ls).2 = 0
    ∧ (handleLogin oc2 ls).1.email = ls.email
    ∧ (handleLogin oc2 ls).1.password = ls.password
    ∧ (handleLogin oc2 ls).1.isLoading = false
    ∧ (handleLogin oc2 ls).1.errors = (loginValidateForm ls.email ls.password).1 := by
  simp [handleSubmit, handleLogin, hv, hv2, hl, hl2]

/-- C5 witness: the empty form and empty login both fail validation and
produce no submission attempt. -/
theorem submit_invalid_no_attempt_witness :
    (handleSubmit 2025 true (freshState 2025)).2 = 0
    ∧ (handleSubmit 2025 true (freshState 2025)).1.isLoading = false
    ∧ (handleLogin true emptyLoginState).2 = 0 :=
  ⟨(submit_invalid_no_attempt 2025 true (freshState 2025) true emptyLoginState
      (by decide) (by decide) (by decide) (by decide)).1,
   (submit_invalid_no_attempt 2025 true (freshState 2025) true emptyLoginState
      (by decide) (by decide) (by decide) (by decide)).2.2.1,
   (submit_invalid_no_attempt 2025 true (freshState 2025) true emptyLoginState
      (by decide) (by decide) (by decide) (by decide)).2.2.2.2.1⟩

/-- C6: when validation passes, a submit run makes exactly one submission
attempt (never zero, never two), and whether that attempt succeeds or
fails the controller ends Idle with the loading flag cleared, so the user
can retry — on both screens. -/
theorem submit_valid_one_attempt (today : Int) (oc : Bool) (s : ControllerState)
    (oc2 : Bool) (ls : LoginState)
    (hv : (validateForm today s.formData).2 = true)
    (hv2 : (loginValidateForm ls.email ls.password).2 = true) :
    (handleSubmit today oc s).2 = 1
    ∧ (handleSubmit today oc s).1.isLoading = false
    ∧ (handleSubmit today oc s).1.formData = s.formData
    ∧ (handleLogin oc2 ls).2 = 1
    ∧ (handleLogin oc2 ls).1.isLoading = false := by
  simp [handleSubmit, handleLogin, hv, hv2]

/-- C6 witness: the validly filled form and login submit exactly once and
return to Idle, for both outcomes of the attempt. -/
theorem submit_valid_one_attempt_witness :
    (handleSubmit 2025 true filledState).2 = 1
    ∧ (handleSubmit 2025 false filledState).1.isLoading = false
    ∧ (handleLogin false filledLoginState).2 = 1 :=
  ⟨(submit_valid_one_attempt 2025 true filledState true filledLoginState
      (by decide) (by decide)).1,
   (submit_valid_one_attempt 2025 false filledState true filledLoginState
      (by decide) (by decide)).2.1,
   (submit_valid_one_attempt 2025 true filledState false filledLoginState
      (by decide) (by decide)).2.2.2.1⟩

/-- C7: `validate()` flags the phone field exactly when the raw string is
empty after trim, or the digits left after stripping non-digits do not
number ten or eleven (the only counts the `(dd) dddd[d]-dddd` local
grouping admits). -/
theorem phone_flag_iff (today : Int) (fd : FormData) :
    ((validateForm today fd).1.phone.isSome = true) ↔
      (jsTrim fd.phone = "" ∨
        ¬((stripNonDigits fd.phone).length = 10 ∨ (stripNonDigits fd.phone).length = 11)) := by
  have hlen : validatePhone fd.phone = true ↔
      ((stripNonDigits fd.phone).length = 10 ∨ (stripNonDigits fd.phone).length = 11) := by
    have hsame : (stripNonDigits fd.phone).length = (stripNonDigits fd.phone).data.length := rfl
    rw [hsame]
    exact phoneAccepts_len _ (strip_all_digits fd.phone)
  rw [vf_phone]
  unfold phErr
  split_ifs with h1 h2
  · simp [h1]
  · simp only [Option.isSome_some, true_iff]
    right
    intro hcon
    rw [Bool.not_eq_true'] at h2
    rw [hlen.mpr hcon] at h2
    cases h2
  · simp only [Option.isSome_none, Bool.false_eq_true, false_iff]
    intro hcon
    have hvp : validatePhone fd.phone = true := by
      cases hb : validatePhone fd.phone with
      | true => rfl
      | false => exact absurd (by rw [hb]; rfl) h2
    rcases hcon with hc | hc
    · exact h1 hc
    · exact hc (hlen.mp hvp)

/-- C7 witness: the empty phone of a fresh form is flagged. -/
theorem phone_flag_iff_witness :
    (validateForm 2025 (defaultFormData 2025)).1.phone.isSome = true :=
  (phone_flag_iff 2025 (defaultFormData 2025)).mpr (Or.inl (by decide))

/-- C8: the age is the current year minus the birth year, the birth date
is flagged exactly when that age is below 13 or above 120, a computed age
of 12 receives the below-minimum message, and 13 passes. -/
theorem birthdate_flag_rule (today : Int) (fd : FormData) :
    (((validateForm today fd).1.birthDate.isSome = true) ↔
      (today - fd.birthDate < 13 ∨ today - fd.birthDate > 120))
    ∧ (today - fd.birthDate = 12 →
        (validateForm today fd).1.birthDate = some "Idade mínima é 13 anos")
    ∧ (today - fd.birthDate = 13 → (validateForm today fd).1.birthDate = none) := by
  rw [vf_birthDate]
  refine ⟨?_, ?_, ?_⟩
  · unfold bdErr
    split_ifs <;> simp_all
  · intro h
    unfold bdErr
    rw [if_pos (by omega)]
  · intro h
    unfold bdErr
    rw [if_neg (by omega), if_neg (by omega)]

/-- C8 witness: birth year 2013 in 2025 (age 12) is flagged as below the
minimum, birth year 2012 (age 13) is not flagged. -/
theorem birthdate_flag_rule_witness :
    (validateForm 2025 clockFormData).1.birthDate = some "Idade mínima é 13 anos"
    ∧ (validateForm 2025 thirteenFormData).1.birthDate = none :=
  ⟨(birthdate_flag_rule 2025 clockFormData).2.1 (by decide),
   (birthdate_flag_rule 2025 thirteenFormData).2.2 (by decide)⟩

/-- C9: `formatPhone` preserves the digit content of its input, is
idempotent, and never changes the verdict of `validatePhone`. -/
theorem formatPhone_preserves_digits (s : String) :
    stripNonDigits (formatPhone s) = stripNonDigits s
    ∧ formatPhone (formatPhone s) = formatPhone s
    ∧ validatePhone (formatPhone s) = validatePhone s := by
  have h1 := formatPhone_strip s
  refine ⟨h1, ?_, ?_⟩
  · cases hm : matchPhoneGroups (stripNonDigits s).data with
    | none =>
      have hs : formatPhone s = s := by
        unfold formatPhone
        simp only [hm]
      rw [hs]
      exact hs
    | some g =>
      have hfs : formatPhone s =
          "(" ++ String.mk g.1 ++ ") " ++ String.mk g.2.1 ++ "-" ++ String.mk g.2.2 := by
        unfold formatPhone
        simp only [hm]
      have hstrip : stripNonDigits
          ("(" ++ String.mk g.1 ++ ") " ++ String.mk g.2.1 ++ "-" ++ String.mk g.2.2) =
          stripNonDigits s := by
        rw [← hfs]
        exact h1
      rw [hfs]
      unfold formatPhone
      simp only [hstrip, hm]
  · unfold validatePhone
    rw [h1]

/-- C10: without initial data the form's birth date defaults to the
current date, so the computed age is `0`, the birth-date field is flagged
as below the minimum age, and the freshly opened form can never pass
validation. -/
theorem fresh_form_never_valid (today : Int) :
    (validateForm today (defaultFormData today)).2 = false
    ∧ (validateForm today (defaultFormData today)).1.birthDate =
      some "Idade mínima é 13 anos" := by
  have hbd : bdErr today (defaultFormData today) = some "Idade mínima é 13 anos" := by
    unfold bdErr defaultFormData
    rw [if_pos (by show today - today < 13; omega)]
  constructor
  · cases hv : (validateForm today (defaultFormData today)).2 with
    | false => rfl
    | true =>
      obtain ⟨_, _, _, _, h5, _, _⟩ := (vf_valid_iff today (defaultFormData today)).mp hv
      rw [hbd] at h5
      cases h5
  · rw [vf_birthDate]
    exact hbd

end DesenvMCP

